import Mathlib

/-!
Verification of the ViolenceSense RTSP violence-detection service.

The definitions below are a shallow embedding of the Python source:
confidence scores and timestamps are modelled as rationals (ℚ, seconds),
Python lists as `List`, `deque(maxlen=n)` as a list kept to its last `n`
elements, and the async detector loop as a pure state-transition function.
Each definition is named after the source symbol it embeds.
-/

namespace ViolenceSense

/-- Severity labels, from `EventSeverity` in `app/db/postgres.py` and
`AlertSeverity` in `app/database.py` (same four labels). -/
inductive EventSeverity where
  | LOW
  | MEDIUM
  | HIGH
  | CRITICAL
deriving DecidableEq, Repr

/-- Review statuses, from `EventStatus` in `app/database.py`. -/
inductive EventStatus where
  | PENDING
  | CONFIRMED
  | DISMISSED
  | AUTO_DISMISSED
  | ACTION_EXECUTED
  | NO_ACTION_REQUIRED
deriving DecidableEq, Repr

namespace EventRepository

/-- `EventRepository.calculate_severity` in `app/db/postgres.py`
(lines 517-527): boundaries 0.95 / 0.85 / 0.75. -/
def calculate_severity (confidence : ℚ) : EventSeverity :=
  if confidence ≥ 95/100 then .CRITICAL
  else if confidence ≥ 85/100 then .HIGH
  else if confidence ≥ 75/100 then .MEDIUM
  else .LOW

end EventRepository

namespace EventDetector

/-- `EventDetector._calculate_severity` in `app/events/detector.py`
(lines 732-741): boundaries 0.9 / 0.8 / 0.7. -/
def calculate_severity (confidence : ℚ) : EventSeverity :=
  if confidence ≥ 9/10 then .CRITICAL
  else if confidence ≥ 8/10 then .HIGH
  else if confidence ≥ 7/10 then .MEDIUM
  else .LOW

end EventDetector

/-- C1 counterexample: at peak confidence 0.8 (which lies in [0,1], with
0.75 ≤ 0.8 < 0.85) the claimed boundaries demand MEDIUM, but the severity
calculation used at event creation in `app/events/detector.py`
(`EventDetector._calculate_severity`) returns HIGH. -/
theorem c1_severity_boundaries_counterexample :
    (0:ℚ) ≤ 8/10 ∧ (8:ℚ)/10 ≤ 1 ∧ (75:ℚ)/100 ≤ 8/10 ∧ (8:ℚ)/10 < 85/100 ∧
      EventDetector.calculate_severity (8/10) ≠ EventSeverity.MEDIUM := by
  refine ⟨by norm_num, by norm_num, by norm_num, by norm_num, ?_⟩
  have h : EventDetector.calculate_severity (8/10) = EventSeverity.HIGH := by
    norm_num [EventDetector.calculate_severity]
  rw [h]
  simp

/-- C1 amended: the claimed boundaries (LOW iff peak < 0.75, MEDIUM iff
0.75 ≤ peak < 0.85, HIGH iff 0.85 ≤ peak < 0.95, CRITICAL iff peak ≥ 0.95)
hold for `EventRepository.calculate_severity`, the function used at event
creation and finalization in the engine/postgres path; the legacy
`EventDetector._calculate_severity` in `app/events/detector.py` instead uses
boundaries 0.7 / 0.8 / 0.9. -/
theorem c1_severity_boundaries_amended (c : ℚ) (h0 : 0 ≤ c) (h1 : c ≤ 1) :
    ((EventRepository.calculate_severity c = .LOW ↔ c < 75/100) ∧
     (EventRepository.calculate_severity c = .MEDIUM ↔ 75/100 ≤ c ∧ c < 85/100) ∧
     (EventRepository.calculate_severity c = .HIGH ↔ 85/100 ≤ c ∧ c < 95/100) ∧
     (EventRepository.calculate_severity c = .CRITICAL ↔ 95/100 ≤ c)) ∧
    ((EventDetector.calculate_severity c = .LOW ↔ c < 7/10) ∧
     (EventDetector.calculate_severity c = .MEDIUM ↔ 7/10 ≤ c ∧ c < 8/10) ∧
     (EventDetector.calculate_severity c = .HIGH ↔ 8/10 ≤ c ∧ c < 9/10) ∧
     (EventDetector.calculate_severity c = .CRITICAL ↔ 9/10 ≤ c)) := by
  unfold EventRepository.calculate_severity EventDetector.calculate_severity
  split_ifs <;>
    refine ⟨⟨?_, ?_, ?_, ?_⟩, ?_, ?_, ?_, ?_⟩ <;>
    simp_all <;> (try intro h2) <;> linarith

/-- Witness for C1 amended at the concrete confidence 0.8. -/
theorem c1_severity_boundaries_witness :
    EventRepository.calculate_severity (8/10) = .MEDIUM ∧
    EventDetector.calculate_severity (8/10) = .HIGH := by
  have h := c1_severity_boundaries_amended (8/10) (by norm_num) (by norm_num)
  exact ⟨h.1.2.1.mpr (by norm_num), h.2.2.2.1.mpr (by norm_num)⟩

/-- Python `int()` applied to a quantity of seconds: truncation toward zero. -/
def pyInt (q : ℚ) : ℤ :=
  if 0 ≤ q then ⌊q⌋ else ⌈q⌉

/-- Python truthiness of an optional string (`if s:`): `None` and `""` are falsy. -/
def strTruthy : Option String → Bool
  | none => false
  | some s => !(s.isEmpty)

/-- Python truthiness of an optional list (`if l:`): `None` and `[]` are falsy. -/
def listTruthy {α : Type} : Option (List α) → Bool
  | none => false
  | some l => !(l.isEmpty)

/-- `InferenceResult` from `app/inference/pipeline.py` (rtsp-service):
one classifier output. Scores and times are rationals. -/
structure InferenceResult where
  violence_score : ℚ
  non_violence_score : ℚ
  timestamp : ℚ
  inference_time_ms : ℚ
  frame_count : ℕ
  window_start : ℚ
  window_end : ℚ
  stream_id : ℕ
deriving DecidableEq, Repr

/-- `InferenceResult.is_violent` (`app/inference/pipeline.py` lines 37-39):
`violence_score >= settings.violence_threshold`; the threshold is passed
explicitly here. -/
def InferenceResult.is_violent (r : InferenceResult) (violence_threshold : ℚ) : Bool :=
  r.violence_score ≥ violence_threshold

/-- `InferenceScore` from `app/detection/event_engine.py`. -/
structure InferenceScore where
  violence_score : ℚ
  non_violence_score : ℚ
  timestamp : ℚ
  inference_time_ms : ℚ
  frame_count : ℕ
  window_start : ℚ
  window_end : ℚ
deriving DecidableEq, Repr

/-- `InferenceScore.is_violent` (`app/detection/event_engine.py` lines 46-49):
`violence_score >= settings.violence_threshold`. -/
def InferenceScore.is_violent (s : InferenceScore) (violence_threshold : ℚ) : Bool :=
  s.violence_score ≥ violence_threshold

/-- C4: both `is_violent` properties use a non-strict comparison — true iff
`violence_score ≥ threshold`; in particular a score exactly equal to the
threshold counts as violent. -/
theorem c4_is_violent_nonstrict (r : InferenceResult) (s : InferenceScore) (t : ℚ) :
    (r.is_violent t = true ↔ r.violence_score ≥ t) ∧
    (s.is_violent t = true ↔ s.violence_score ≥ t) ∧
    (r.violence_score = t → r.is_violent t = true) ∧
    (s.violence_score = t → s.is_violent t = true) := by
  refine ⟨by simp [InferenceResult.is_violent], by simp [InferenceScore.is_violent], ?_, ?_⟩
  · intro h
    simp [InferenceResult.is_violent, h]
  · intro h
    simp [InferenceScore.is_violent, h]

/-- Witness for C4 at a concrete result whose score equals the threshold. -/
theorem c4_is_violent_nonstrict_witness :
    (InferenceResult.is_violent ⟨1/2, 1/2, 0, 0, 16, 0, 0, 1⟩ (1/2) = true) ∧
    (InferenceScore.is_violent ⟨1/2, 1/2, 0, 0, 16, 0, 0⟩ (1/2) = true) :=
  ⟨(c4_is_violent_nonstrict ⟨1/2, 1/2, 0, 0, 16, 0, 0, 1⟩ ⟨1/2, 1/2, 0, 0, 16, 0, 0⟩ (1/2)).2.2.1 rfl,
   (c4_is_violent_nonstrict ⟨1/2, 1/2, 0, 0, 16, 0, 0, 1⟩ ⟨1/2, 1/2, 0, 0, 16, 0, 0⟩ (1/2)).2.2.2 rfl⟩

/-- The `Event` row of `app/database.py` as touched by
`StreamManager.update_event_status` (`app/manager.py` lines 443-469). -/
structure DbEvent where
  id : ℕ
  stream_id : ℕ
  status : EventStatus
  reviewed_at : Option ℚ
  reviewed_by : Option String
  notes : Option String
  updated_at : ℚ
deriving DecidableEq, Repr

namespace StreamManager

/-- `StreamManager.update_event_status` (`app/manager.py` lines 443-469):
writes `status`, `reviewed_at`, `updated_at` unconditionally; `reviewed_by`
and `notes` only when truthy. There is no check of the current status. -/
def update_event_status (e : DbEvent) (status : EventStatus)
    (reviewed_by notes : Option String) (now : ℚ) : DbEvent :=
  let e1 := { e with status := status, reviewed_at := some now, updated_at := now }
  let e2 := if strTruthy reviewed_by then { e1 with reviewed_by := reviewed_by } else e1
  if strTruthy notes then { e2 with notes := notes } else e2

end StreamManager

/-- The `Event` row of `app/db/postgres.py` (UUID/string-status model), with
every column the repository operations below read or write. `stream_id` and
`status` are plain strings in that model. -/
structure Event where
  id : ℕ
  stream_id : String
  stream_name : String
  start_time : ℚ
  end_time : Option ℚ
  duration_seconds : Option ℤ
  max_confidence : ℚ
  avg_confidence : ℚ
  min_confidence : ℚ
  frame_count : ℕ
  severity : EventSeverity
  status : String
  clip_path : Option String
  clip_duration : Option ℤ
  thumbnail_path : Option String
  person_images : Option (List String)
  person_count : ℕ
  reviewed_at : Option ℚ
  reviewed_by : Option String
  notes : Option String
  updated_at : ℚ
deriving DecidableEq, Repr

namespace EventRepository

/-- `EventRepository.update_status` (`app/db/postgres.py` lines 639-665):
writes `status`, `reviewed_at`, `reviewed_by`, `notes`, `updated_at`
unconditionally — `reviewed_by`/`notes` are overwritten even with `None`.
No check of the current status. -/
def update_status (e : Event) (status : String)
    (reviewed_by notes : Option String) (now : ℚ) : Event :=
  { e with status := status, reviewed_at := some now,
           reviewed_by := reviewed_by, notes := notes, updated_at := now }

end EventRepository

/-- A concrete already-reviewed event used to refute C9. -/
def reviewedDbEvent : DbEvent :=
  { id := 1, stream_id := 1, status := .CONFIRMED,
    reviewed_at := some 10, reviewed_by := some "op", notes := none,
    updated_at := 10 }

/-- C9 counterexample: an event whose status is already CONFIRMED (non-PENDING)
is moved to DISMISSED by a further `update_event_status` call — the call is
neither a no-op nor rejected, so non-PENDING statuses are not terminal. -/
theorem c9_update_status_counterexample :
    reviewedDbEvent.status = EventStatus.CONFIRMED ∧
    reviewedDbEvent.status ≠ EventStatus.PENDING ∧
    (StreamManager.update_event_status reviewedDbEvent .DISMISSED none none 20).status
      = EventStatus.DISMISSED ∧
    (StreamManager.update_event_status reviewedDbEvent .DISMISSED none none 20).status
      ≠ reviewedDbEvent.status := by
  refine ⟨rfl, by decide, rfl, by decide⟩

/-- C9 amended: both status-update operations write the requested status
unconditionally, whatever the current status is — there is no PENDING guard,
no rejection path, and no terminal status; identity fields are preserved. -/
theorem c9_update_status_amended (e : DbEvent) (pe : Event) (s : EventStatus)
    (ps : String) (rb nts : Option String) (now : ℚ) :
    ((StreamManager.update_event_status e s rb nts now).status = s ∧
     (StreamManager.update_event_status e s rb nts now).id = e.id ∧
     (StreamManager.update_event_status e s rb nts now).reviewed_at = some now) ∧
    ((EventRepository.update_status pe ps rb nts now).status = ps ∧
     (EventRepository.update_status pe ps rb nts now).id = pe.id ∧
     (EventRepository.update_status pe ps rb nts now).reviewed_at = some now) := by
  unfold StreamManager.update_event_status EventRepository.update_status
  split_ifs <;> simp_all

/-- `FramePacket` from `app/stream/ffmpeg_ingestion.py` (the `FrameData` of
`app/stream/ingestion.py` has the same fields); the pixel payload is opaque
and modelled as a number. -/
structure FramePacket where
  frame : ℕ
  timestamp : ℚ
  frame_number : ℕ
  stream_id : String
deriving DecidableEq, Repr

/-- Python `l[-k:]` for an integer `k`: the whole list when `k = 0`, the
newest `k` entries (all of them when `k ≥ len`) when `k > 0`, and `l[m:]`
with `m = -k` when `k < 0`. -/
def pySliceLast {α : Type} (l : List α) (k : ℤ) : List α :=
  if k = 0 then l
  else if 0 < k then l.drop (l.length - k.toNat)
  else l.drop (-k).toNat

/-- `RingBuffer` from `app/stream/ffmpeg_ingestion.py` lines 97-114 (the
`FrameBuffer` of `app/stream/ingestion.py` lines 52-81 is the same
`deque(maxlen=...)` structure): a bounded FIFO of frame packets. -/
structure RingBuffer where
  max_size : ℕ
  buffer : List FramePacket
deriving DecidableEq, Repr

namespace RingBuffer

/-- `RingBuffer.push` / `FrameBuffer.add`: `deque(maxlen=max_size).append` —
append the packet and keep only the newest `max_size` entries. -/
def push (b : RingBuffer) (p : FramePacket) : RingBuffer :=
  let nb := b.buffer ++ [p]
  { b with buffer := nb.drop (nb.length - b.max_size) }

/-- `RingBuffer.get_window` / `FrameBuffer.get_window`
(`app/stream/ffmpeg_ingestion.py` lines 116-120, `app/stream/ingestion.py`
lines 64-68): `frames_needed = int(seconds * fps)` then
`list(self.buffer)[-frames_needed:]`. -/
def get_window (b : RingBuffer) (seconds fps : ℚ) : List FramePacket :=
  pySliceLast b.buffer (pyInt (seconds * fps))

end RingBuffer

namespace StreamIngestion

/-- `StreamIngestion.get_frame_window` (`app/stream/ingestion.py` lines
404-406): delegates to the buffer's `get_window` with the stream's
`target_fps`. -/
def get_frame_window (b : RingBuffer) (target_fps seconds : ℚ) : List FramePacket :=
  b.get_window seconds target_fps

end StreamIngestion

/-- Modelled from the spec: `get_last_window(seconds) -> FramePacket[]`,
"frames with `timestamp` within the last `seconds`" — membership decided by
each frame's timestamp relative to the newest buffered frame. Stated only to
compare the implementation against; no code computes this. -/
def get_window_by_timestamp (b : RingBuffer) (seconds : ℚ) : List FramePacket :=
  match b.buffer.getLast? with
  | none => []
  | some newest => b.buffer.filter (fun p => newest.timestamp - seconds ≤ p.timestamp)

/-- C6: the ring buffer never exceeds its fixed capacity; a push below
capacity appends, and a push at capacity evicts exactly the oldest packet
while the rest keep their insertion order. -/
theorem c6_ring_buffer_fifo (b : RingBuffer) (p : FramePacket) :
    ((b.push p).buffer.length ≤ b.max_size ∨ (b.push p).buffer.length = b.buffer.length + 1) ∧
    (b.buffer.length ≤ b.max_size → (b.push p).buffer.length ≤ b.max_size) ∧
    (b.buffer.length < b.max_size → (b.push p).buffer = b.buffer ++ [p]) ∧
    (b.buffer.length = b.max_size → 0 < b.max_size →
      (b.push p).buffer = b.buffer.tail ++ [p]) ∧
    (b.push p).max_size = b.max_size := by
  unfold RingBuffer.push
  simp only [List.length_drop, List.length_append, List.length_singleton]
  refine ⟨by omega, by omega, ?_, ?_, trivial⟩
  · intro h
    have hz : b.buffer.length + 1 - b.max_size = 0 := by omega
    simp [hz]
  · intro hfull hpos
    have h1 : b.buffer.length + 1 - b.max_size = 1 := by omega
    rw [h1, List.drop_append_eq_append_drop]
    have h2 : 1 - b.buffer.length = 0 := by omega
    simp [h2, List.drop_one]

/-- Witness for C6 on a concrete full buffer of capacity 2. -/
theorem c6_ring_buffer_fifo_witness :
    (RingBuffer.push ⟨2, [⟨1, 0, 1, "s"⟩, ⟨2, 1, 2, "s"⟩]⟩ ⟨3, 2, 3, "s"⟩).buffer
      = [⟨2, 1, 2, "s"⟩, ⟨3, 2, 3, "s"⟩] := by
  have h := (c6_ring_buffer_fifo ⟨2, [⟨1, 0, 1, "s"⟩, ⟨2, 1, 2, "s"⟩]⟩ ⟨3, 2, 3, "s"⟩).2.2.2.1
    (by decide) (by decide)
  simpa using h

/-- A two-packet buffer whose frames are 100 seconds apart, refuting C7. -/
def wideBuffer : RingBuffer :=
  ⟨150, [⟨1, 0, 1, "s"⟩, ⟨2, 100, 2, "s"⟩]⟩

/-- C7 counterexample: with frames 100 s apart, `get_window(1)` at the
nominal fps 15 returns both frames — including one 100 s old — because it
slices `int(1 × 15) = 15` frames by count; selecting by timestamp would
return only the newest frame. -/
theorem c7_get_window_counterexample :
    RingBuffer.get_window wideBuffer 1 15
      = [⟨1, 0, 1, "s"⟩, ⟨2, 100, 2, "s"⟩] ∧
    get_window_by_timestamp wideBuffer 1 = [⟨2, 100, 2, "s"⟩] ∧
    RingBuffer.get_window wideBuffer 1 15 ≠ get_window_by_timestamp wideBuffer 1 := by
  refine ⟨?_, ?_, ?_⟩ <;>
    norm_num [RingBuffer.get_window, get_window_by_timestamp, wideBuffer,
      pySliceLast, pyInt, List.filter]

/-- C7 amended: `get_window(seconds)` selects by frame count, not timestamp —
it returns the newest `int(seconds × fps)` buffered frames (the whole buffer
when that count is 0 or at least the buffer length), and
`StreamIngestion.get_frame_window` is exactly this with the stream's
`target_fps`. -/
theorem c7_get_window_amended (b : RingBuffer) (seconds fps : ℚ)
    (hs : 0 < seconds) (hf : 0 ≤ fps) :
    (b.get_window seconds fps).IsSuffix b.buffer ∧
    (b.get_window seconds fps).length
      = (if pyInt (seconds * fps) = 0 then b.buffer.length
         else min (pyInt (seconds * fps)).toNat b.buffer.length) ∧
    StreamIngestion.get_frame_window b fps seconds = b.get_window seconds fps := by
  have hk : 0 ≤ pyInt (seconds * fps) := by
    have hnn : 0 ≤ seconds * fps := mul_nonneg hs.le hf
    simp only [pyInt, if_pos hnn]
    exact Int.floor_nonneg.mpr hnn
  unfold RingBuffer.get_window StreamIngestion.get_frame_window pySliceLast
  refine ⟨?_, ?_, rfl⟩
  · split_ifs
    · exact List.suffix_refl _
    · exact List.drop_suffix _ _
    · exact List.drop_suffix _ _
  · split_ifs with h0 hpos
    · rfl
    · simp only [List.length_drop]
      omega
    · omega

/-- Witness for C7 amended on the concrete two-frame buffer. -/
theorem c7_get_window_amended_witness :
    (RingBuffer.get_window wideBuffer 1 15).IsSuffix wideBuffer.buffer ∧
    (RingBuffer.get_window wideBuffer 1 15).length
      = (if pyInt ((1:ℚ) * 15) = 0 then wideBuffer.buffer.length
         else min (pyInt ((1:ℚ) * 15)).toNat wideBuffer.buffer.length) ∧
    StreamIngestion.get_frame_window wideBuffer 15 1 = RingBuffer.get_window wideBuffer 1 15 :=
  c7_get_window_amended wideBuffer 1 15 (by norm_num) (by norm_num)

/-- Python `max(s :: rest)`: a left fold of the binary max. -/
def pyMax (s : ℚ) (rest : List ℚ) : ℚ :=
  rest.foldl max s

/-- Python `min(s :: rest)`: a left fold of the binary min. -/
def pyMin (s : ℚ) (rest : List ℚ) : ℚ :=
  rest.foldl min s

theorem pyMax_mem (s : ℚ) (l : List ℚ) : pyMax s l ∈ s :: l := by
  induction l generalizing s with
  | nil => simp [pyMax]
  | cons a t ih =>
    simp only [pyMax, List.foldl_cons]
    have h := ih (max s a)
    simp only [pyMax] at h
    rw [List.mem_cons] at h
    rcases h with h | h
    · rcases max_choice s a with hc | hc
      · rw [h, hc]
        exact List.mem_cons_self _ _
      · rw [h, hc]
        exact List.mem_cons_of_mem _ (List.mem_cons_self _ _)
    · exact List.mem_cons_of_mem _ (List.mem_cons_of_mem _ h)

theorem le_pyMax (s : ℚ) (l : List ℚ) : ∀ x ∈ s :: l, x ≤ pyMax s l := by
  induction l generalizing s with
  | nil =>
    intro x hx
    rw [List.mem_singleton] at hx
    simp [pyMax, hx]
  | cons a t ih =>
    intro x hx
    simp only [pyMax, List.foldl_cons]
    have h := ih (max s a)
    simp only [pyMax] at h
    rw [List.mem_cons] at hx
    rcases hx with hx | hx
    · exact le_trans (by rw [hx]; exact le_max_left s a) (h _ (List.mem_cons_self _ _))
    · rw [List.mem_cons] at hx
      rcases hx with hx | hx
      · exact le_trans (by rw [hx]; exact le_max_right s a) (h _ (List.mem_cons_self _ _))
      · exact h x (List.mem_cons_of_mem _ hx)

theorem pyMin_mem (s : ℚ) (l : List ℚ) : pyMin s l ∈ s :: l := by
  induction l generalizing s with
  | nil => simp [pyMin]
  | cons a t ih =>
    simp only [pyMin, List.foldl_cons]
    have h := ih (min s a)
    simp only [pyMin] at h
    rw [List.mem_cons] at h
    rcases h with h | h
    · rcases min_choice s a with hc | hc
      · rw [h, hc]
        exact List.mem_cons_self _ _
      · rw [h, hc]
        exact List.mem_cons_of_mem _ (List.mem_cons_self _ _)
    · exact List.mem_cons_of_mem _ (List.mem_cons_of_mem _ h)

theorem pyMin_le (s : ℚ) (l : List ℚ) : ∀ x ∈ s :: l, pyMin s l ≤ x := by
  induction l generalizing s with
  | nil =>
    intro x hx
    rw [List.mem_singleton] at hx
    simp [pyMin, hx]
  | cons a t ih =>
    intro x hx
    simp only [pyMin, List.foldl_cons]
    have h := ih (min s a)
    simp only [pyMin] at h
    rw [List.mem_cons] at hx
    rcases hx with hx | hx
    · exact le_trans (h _ (List.mem_cons_self _ _)) (by rw [hx]; exact min_le_left s a)
    · rw [List.mem_cons] at hx
      rcases hx with hx | hx
      · exact le_trans (h _ (List.mem_cons_self _ _)) (by rw [hx]; exact min_le_right s a)
      · exact h x (List.mem_cons_of_mem _ hx)

namespace EventRepository

/-- `EventRepository.finalize_event` (`app/db/postgres.py` lines 688-745):
returns `None` on an empty score list, otherwise rewrites the event row with
end time, truncated whole-second duration, max/avg/min over the scores,
severity recomputed from the max, clip fields, and — only when the optional
person-image list is truthy — the person fields. `event` stands for the row
the function looks up by id; `now` is `datetime.utcnow()`. -/
def finalize_event (event : Event) (end_time : ℚ) (scores : List ℚ)
    (frame_count : ℕ) (clip_path : Option String) (clip_duration : Option ℤ)
    (thumbnail_path : Option String) (person_images : Option (List String))
    (person_count : ℕ) (now : ℚ) : Option Event :=
  match scores with
  | [] => none
  | s :: rest =>
    some { event with
      end_time := some end_time,
      duration_seconds := some (pyInt (end_time - event.start_time)),
      max_confidence := pyMax s rest,
      avg_confidence := (s :: rest).sum / (s :: rest).length,
      min_confidence := pyMin s rest,
      frame_count := frame_count,
      severity := calculate_severity (pyMax s rest),
      clip_path := clip_path,
      clip_duration := clip_duration,
      thumbnail_path := thumbnail_path,
      person_images := if listTruthy person_images then person_images
                       else event.person_images,
      person_count := if listTruthy person_images then person_count
                      else event.person_count,
      updated_at := now }

end EventRepository

/-- A concrete PENDING event row used in concrete checks. -/
def blankEvent : Event :=
  { id := 1, stream_id := "sid", stream_name := "cam", start_time := 0,
    end_time := none, duration_seconds := none, max_confidence := 1/2,
    avg_confidence := 1/2, min_confidence := 1/2, frame_count := 16,
    severity := .LOW, status := "new", clip_path := none,
    clip_duration := none, thumbnail_path := none, person_images := none,
    person_count := 0, reviewed_at := none, reviewed_by := none,
    notes := none, updated_at := 0 }

/-- C2 counterexample: finalizing an event that started at t = 0 with
end time t = 3/2 s stores `duration_seconds = 1` (Python `int()` truncation
of `total_seconds()`), which differs from the claimed
`end_time − start_time = 3/2`. -/
theorem c2_finalize_counterexample :
    (EventRepository.finalize_event blankEvent (3/2) [1/2] 10
        none none none none 0 2).map (fun e => e.duration_seconds)
      = some (some 1) ∧
    ((1 : ℚ) ≠ 3/2 - blankEvent.start_time) := by
  constructor
  · have hf : pyInt ((3:ℚ)/2 - blankEvent.start_time) = 1 := by
      have heq : ((3:ℚ)/2 - blankEvent.start_time) = 3/2 := by
        norm_num [blankEvent]
      rw [heq, pyInt, if_pos (by norm_num)]
      rw [Int.floor_eq_iff]
      norm_num
    simp [EventRepository.finalize_event, hf]
  · norm_num [blankEvent]

/-- The `Event` row of `app/database.py` (int-id model) as touched by
`EventDetector._create_event` and `_finalize_event`; `duration_seconds` and
`clip_duration` are `Float` columns there, so they hold exact values. -/
structure LegacyEvent where
  id : ℕ
  stream_id : ℕ
  stream_name : String
  start_time : ℚ
  end_time : Option ℚ
  duration_seconds : Option ℚ
  max_confidence : ℚ
  avg_confidence : ℚ
  min_confidence : ℚ
  frame_count : ℕ
  severity : EventSeverity
  status : EventStatus
  clip_path : Option String
  clip_duration : Option ℚ
  thumbnail_path : Option String
deriving DecidableEq, Repr

namespace EventDetector

/-- `EventDetector._finalize_event` (`app/events/detector.py` lines
669-711): writes end time, the caller's `duration` unchanged (a `Float`
column — no truncation), max/avg/min with a 0 fallback on empty scores,
`frame_count = len(scores)` and the clip fields. It does NOT write
`severity`: the value computed at creation remains. -/
def finalize_event (e : LegacyEvent) (end_time duration : ℚ)
    (scores : List ℚ) (clip_filename thumbnail_filename : Option String)
    (clip_duration : ℚ) : LegacyEvent :=
  { e with
    end_time := some end_time,
    duration_seconds := some duration,
    max_confidence := (match scores with
      | [] => 0
      | s :: rest => pyMax s rest),
    avg_confidence := (match scores with
      | [] => 0
      | s :: rest => (s :: rest).sum / ((s :: rest).length : ℚ)),
    min_confidence := (match scores with
      | [] => 0
      | s :: rest => pyMin s rest),
    frame_count := scores.length,
    clip_path := clip_filename,
    clip_duration := some clip_duration,
    thumbnail_path := thumbnail_filename }

/-- The `duration` that `_end_event` (`app/events/detector.py` lines
516-523) passes to `_finalize_event`: the exact
`(end_time − state.start_time).total_seconds()`, or 0 without a start
time. -/
def end_event_duration (state_start_time : Option ℚ) (end_time : ℚ) : ℚ :=
  match state_start_time with
  | some start => end_time - start
  | none => 0

end EventDetector

/-- C2 amended: on both cited finalization paths, for a non-empty score
list S, finalization writes `max_confidence = max(S)`,
`min_confidence = min(S)`, `avg_confidence = mean(S)` and the frame count.
The remaining clauses split per path: `EventRepository.finalize_event`
(postgres.py) recomputes severity from `max(S)` but stores
`duration_seconds` as `end_time − start_time` truncated to whole seconds
(within one second below the exact difference), while the legacy
`EventDetector._finalize_event` (detector.py) stores `duration_seconds` as
the exact `end_time − start_time` its caller computes but never rewrites
severity — the creation-time severity (from the first score) persists. -/
theorem c2_finalize_amended (event : Event) (end_time now s : ℚ)
    (rest : List ℚ) (fc : ℕ) (cp : Option String) (cd : Option ℤ)
    (tp : Option String) (imgs : Option (List String)) (pc : ℕ)
    (le : LegacyEvent) (lend lcd start0 : ℚ) (stStart : Option ℚ)
    (cfn tfn : Option String) (hst : stStart = some start0) :
    (∃ e, EventRepository.finalize_event event end_time (s :: rest) fc
            cp cd tp imgs pc now = some e ∧
      e.end_time = some end_time ∧
      e.max_confidence ∈ s :: rest ∧
      (∀ x ∈ s :: rest, x ≤ e.max_confidence) ∧
      e.min_confidence ∈ s :: rest ∧
      (∀ x ∈ s :: rest, e.min_confidence ≤ x) ∧
      e.avg_confidence * (s :: rest).length = (s :: rest).sum ∧
      e.severity = EventRepository.calculate_severity e.max_confidence ∧
      e.duration_seconds = some (pyInt (end_time - event.start_time)) ∧
      (event.start_time ≤ end_time →
        ((pyInt (end_time - event.start_time) : ℚ) ≤ end_time - event.start_time ∧
         end_time - event.start_time < pyInt (end_time - event.start_time) + 1))) ∧
    ((EventDetector.finalize_event le lend
        (EventDetector.end_event_duration stStart lend) (s :: rest)
        cfn tfn lcd).end_time = some lend ∧
     (EventDetector.finalize_event le lend
        (EventDetector.end_event_duration stStart lend) (s :: rest)
        cfn tfn lcd).duration_seconds = some (lend - start0) ∧
     (EventDetector.finalize_event le lend
        (EventDetector.end_event_duration stStart lend) (s :: rest)
        cfn tfn lcd).severity = le.severity ∧
     (EventDetector.finalize_event le lend
        (EventDetector.end_event_duration stStart lend) (s :: rest)
        cfn tfn lcd).max_confidence ∈ s :: rest ∧
     (∀ x ∈ s :: rest, x ≤
       (EventDetector.finalize_event le lend
          (EventDetector.end_event_duration stStart lend) (s :: rest)
          cfn tfn lcd).max_confidence) ∧
     (EventDetector.finalize_event le lend
        (EventDetector.end_event_duration stStart lend) (s :: rest)
        cfn tfn lcd).min_confidence ∈ s :: rest ∧
     (∀ x ∈ s :: rest,
       (EventDetector.finalize_event le lend
          (EventDetector.end_event_duration stStart lend) (s :: rest)
          cfn tfn lcd).min_confidence ≤ x) ∧
     (EventDetector.finalize_event le lend
        (EventDetector.end_event_duration stStart lend) (s :: rest)
        cfn tfn lcd).avg_confidence * (s :: rest).length = (s :: rest).sum ∧
     (EventDetector.finalize_event le lend
        (EventDetector.end_event_duration stStart lend) (s :: rest)
        cfn tfn lcd).frame_count = (s :: rest).length) := by
  have havg : (s :: rest).sum / ((s :: rest).length : ℚ) *
      ((s :: rest).length : ℚ) = (s :: rest).sum := by
    have hlen : ((s :: rest).length : ℚ) ≠ 0 := by
      simp only [List.length_cons]
      push_cast
      positivity
    exact div_mul_cancel₀ _ hlen
  subst hst
  constructor
  · refine ⟨_, rfl, rfl, pyMax_mem s rest, le_pyMax s rest, pyMin_mem s rest,
      pyMin_le s rest, havg, rfl, rfl, ?_⟩
    intro hle
    have hnn : (0:ℚ) ≤ end_time - event.start_time := by linarith
    rw [pyInt, if_pos hnn]
    exact ⟨Int.floor_le _, Int.lt_floor_add_one _⟩
  · exact ⟨rfl, rfl, rfl, pyMax_mem s rest, le_pyMax s rest, pyMin_mem s rest,
      pyMin_le s rest, havg, rfl⟩

/-- A concrete PENDING legacy (database.py) event row, created with
severity HIGH from its first score. -/
def blankLegacyEvent : LegacyEvent :=
  { id := 1, stream_id := 1, stream_name := "cam", start_time := 0,
    end_time := none, duration_seconds := none, max_confidence := 1/2,
    avg_confidence := 1/2, min_confidence := 1/2, frame_count := 1,
    severity := .HIGH, status := .PENDING, clip_path := none,
    clip_duration := none, thumbnail_path := none }

/-- Witness for C2 amended: the postgres path on `blankEvent` at end time 2,
and the legacy path on `blankLegacyEvent` ending at t = 3/2 (exact duration
3/2 stored, severity untouched), both with scores [0.9, 0.6]. -/
theorem c2_finalize_amended_witness :
    (∃ e, EventRepository.finalize_event blankEvent 2 ((9:ℚ)/10 :: [(6:ℚ)/10]) 32
            none none none none 0 2 = some e ∧
      e.end_time = some 2 ∧
      e.max_confidence ∈ (9:ℚ)/10 :: [(6:ℚ)/10] ∧
      (∀ x ∈ (9:ℚ)/10 :: [(6:ℚ)/10], x ≤ e.max_confidence) ∧
      e.min_confidence ∈ (9:ℚ)/10 :: [(6:ℚ)/10] ∧
      (∀ x ∈ (9:ℚ)/10 :: [(6:ℚ)/10], e.min_confidence ≤ x) ∧
      e.avg_confidence * (((9:ℚ)/10 :: [(6:ℚ)/10]).length) = ((9:ℚ)/10 :: [(6:ℚ)/10]).sum ∧
      e.severity = EventRepository.calculate_severity e.max_confidence ∧
      e.duration_seconds = some (pyInt (2 - blankEvent.start_time)) ∧
      (blankEvent.start_time ≤ 2 →
        ((pyInt (2 - blankEvent.start_time) : ℚ) ≤ 2 - blankEvent.start_time ∧
         2 - blankEvent.start_time < pyInt (2 - blankEvent.start_time) + 1))) ∧
    ((EventDetector.finalize_event blankLegacyEvent (3/2)
        (EventDetector.end_event_duration (some 0) (3/2)) ((9:ℚ)/10 :: [(6:ℚ)/10])
        none none 2).end_time = some (3/2) ∧
     (EventDetector.finalize_event blankLegacyEvent (3/2)
        (EventDetector.end_event_duration (some 0) (3/2)) ((9:ℚ)/10 :: [(6:ℚ)/10])
        none none 2).duration_seconds = some ((3:ℚ)/2 - 0) ∧
     (EventDetector.finalize_event blankLegacyEvent (3/2)
        (EventDetector.end_event_duration (some 0) (3/2)) ((9:ℚ)/10 :: [(6:ℚ)/10])
        none none 2).severity = blankLegacyEvent.severity ∧
     (EventDetector.finalize_event blankLegacyEvent (3/2)
        (EventDetector.end_event_duration (some 0) (3/2)) ((9:ℚ)/10 :: [(6:ℚ)/10])
        none none 2).max_confidence ∈ (9:ℚ)/10 :: [(6:ℚ)/10] ∧
     (∀ x ∈ (9:ℚ)/10 :: [(6:ℚ)/10], x ≤
       (EventDetector.finalize_event blankLegacyEvent (3/2)
          (EventDetector.end_event_duration (some 0) (3/2)) ((9:ℚ)/10 :: [(6:ℚ)/10])
          none none 2).max_confidence) ∧
     (EventDetector.finalize_event blankLegacyEvent (3/2)
        (EventDetector.end_event_duration (some 0) (3/2)) ((9:ℚ)/10 :: [(6:ℚ)/10])
        none none 2).min_confidence ∈ (9:ℚ)/10 :: [(6:ℚ)/10] ∧
     (∀ x ∈ (9:ℚ)/10 :: [(6:ℚ)/10],
       (EventDetector.finalize_event blankLegacyEvent (3/2)
          (EventDetector.end_event_duration (some 0) (3/2)) ((9:ℚ)/10 :: [(6:ℚ)/10])
          none none 2).min_confidence ≤ x) ∧
     (EventDetector.finalize_event blankLegacyEvent (3/2)
        (EventDetector.end_event_duration (some 0) (3/2)) ((9:ℚ)/10 :: [(6:ℚ)/10])
        none none 2).avg_confidence * (((9:ℚ)/10 :: [(6:ℚ)/10]).length)
          = ((9:ℚ)/10 :: [(6:ℚ)/10]).sum ∧
     (EventDetector.finalize_event blankLegacyEvent (3/2)
        (EventDetector.end_event_duration (some 0) (3/2)) ((9:ℚ)/10 :: [(6:ℚ)/10])
        none none 2).frame_count = ((9:ℚ)/10 :: [(6:ℚ)/10]).length) :=
  c2_finalize_amended blankEvent 2 2 ((9:ℚ)/10) [(6:ℚ)/10] 32 none none none none 0
    blankLegacyEvent (3/2) 2 0 (some 0) none none rfl

namespace EventRepository

/-- `EventRepository.create` (`app/db/postgres.py` lines 529-566) as used by
`_transition_to_active` (no end time, no clip): inserts a row with severity
computed from `max_confidence` and the default status `"new"`. `new_id` is
the id the database assigns, `db_now` its clock. -/
def create (new_id : ℕ) (stream_id stream_name : String)
    (start_time max_c avg_c min_c : ℚ) (frame_count : ℕ) (db_now : ℚ) : Event :=
  { id := new_id, stream_id := stream_id, stream_name := stream_name,
    start_time := start_time, end_time := none, duration_seconds := none,
    max_confidence := max_c, avg_confidence := avg_c, min_confidence := min_c,
    frame_count := frame_count, severity := calculate_severity max_c,
    status := "new", clip_path := none, clip_duration := none,
    thumbnail_path := none, person_images := none, person_count := 0,
    reviewed_at := none, reviewed_by := none, notes := none,
    updated_at := db_now }

end EventRepository

/-- `DetectorState.Phase` from `app/detection/event_engine.py`. -/
inductive Phase where
  | IDLE
  | TRIGGERED
  | ACTIVE
  | ENDING
  | COOLDOWN
deriving DecidableEq, Repr

/-- `DetectorState` from `app/detection/event_engine.py` (dataclass
defaults); `ending_task_pending` models whether the one-shot
`_complete_event_ending` task is scheduled and not cancelled. -/
structure DetectorState where
  phase : Phase := .IDLE
  consecutive_violent_count : ℕ := 0
  last_violent_time : Option ℚ := none
  current_event_id : Option ℕ := none
  event_start_time : Option ℚ := none
  event_scores : List ℚ := []
  event_frame_count : ℕ := 0
  peak_score : ℚ := 0
  cooldown_until : Option ℚ := none
  last_event_end : Option ℚ := none
  clip_frames : List FramePacket := []
  ending_task_pending : Bool := false
deriving DecidableEq, Repr

/-- The freshly constructed `DetectorState()`. -/
def DetectorState.initial : DetectorState := {}

/-- Configuration held by `EventDetectionEngine.__init__`. -/
structure EngineConfig where
  stream_id : String
  stream_name : String
  threshold : ℚ
  min_consecutive : ℕ
  cooldown_seconds : ℚ
  clip_before_seconds : ℚ
  clip_after_seconds : ℚ
deriving DecidableEq, Repr

namespace EventDetectionEngine

/-- `self.hysteresis_factor = 0.8` (`app/detection/event_engine.py`):
`end_threshold = threshold * hysteresis_factor`. -/
def hysteresis_factor : ℚ := 8/10

/-- `if self.state.cooldown_until and now >= self.state.cooldown_until`. -/
def cooldownExpired (st : DetectorState) (now : ℚ) : Bool :=
  match st.cooldown_until with
  | some cu => now ≥ cu
  | none => false

/-- `EventDetectionEngine.process_score` (`app/detection/event_engine.py`
lines 177-255) as a pure transition: `pre_frames` is what
`ingestion.get_frame_window(clip_before_seconds)` returns at this tick,
`latest` what `ring_buffer.get_latest(1)` returns, `new_id`/`db_now` the id
and clock the database would supply on event creation. The second component
is the `Event` row created on the TRIGGERED → ACTIVE transition, `none`
otherwise. -/
def process_score (cfg : EngineConfig) (st : DetectorState)
    (score : InferenceScore) (pre_frames latest : List FramePacket)
    (new_id : ℕ) (db_now : ℚ) : DetectorState × Option Event :=
  let now := score.timestamp
  if st.phase = .COOLDOWN ∧ cooldownExpired st now = false then
    (st, none)
  else
    let st := if st.phase = .COOLDOWN then { st with phase := .IDLE } else st
    let st := if (st.phase = .IDLE ∨ st.phase = .TRIGGERED) ∧ pre_frames ≠ []
              then { st with clip_frames := pre_frames } else st
    let is_violent := score.violence_score ≥ cfg.threshold
    let is_below_end := score.violence_score < cfg.threshold * hysteresis_factor
    match st.phase with
    | .IDLE =>
        if is_violent then
          ({ st with
             phase := .TRIGGERED,
             consecutive_violent_count := 1,
             last_violent_time := some now }, none)
        else (st, none)
    | .TRIGGERED =>
        if is_violent then
          let st := { st with
            consecutive_violent_count := st.consecutive_violent_count + 1,
            last_violent_time := some now }
          if st.consecutive_violent_count ≥ cfg.min_consecutive then
            let ev := EventRepository.create new_id cfg.stream_id
              cfg.stream_name now score.violence_score score.violence_score
              score.violence_score score.frame_count db_now
            ({ st with
               phase := .ACTIVE,
               event_start_time := some now,
               event_scores := [score.violence_score],
               peak_score := score.violence_score,
               event_frame_count := score.frame_count,
               current_event_id := some new_id }, some ev)
          else (st, none)
        else
          ({ st with
             phase := .IDLE,
             consecutive_violent_count := 0,
             last_violent_time := none }, none)
    | .ACTIVE =>
        let st := { st with
          event_scores := st.event_scores ++ [score.violence_score],
          event_frame_count := st.event_frame_count + score.frame_count,
          peak_score := max st.peak_score score.violence_score,
          clip_frames := if latest ≠ [] then st.clip_frames ++ latest
                         else st.clip_frames }
        if is_below_end then
          ({ st with phase := .ENDING, ending_task_pending := true }, none)
        else ({ st with ending_task_pending := false }, none)
    | .ENDING =>
        if is_violent then
          ({ st with
             phase := .ACTIVE,
             ending_task_pending := false,
             event_scores := st.event_scores ++ [score.violence_score] },
           none)
        else (st, none)
    | .COOLDOWN => (st, none)

/-- `_complete_event_ending` + the state part of `_finalize_event`
(`app/detection/event_engine.py` lines 327-445), fired `clip_after_seconds`
after the ENDING transition: if still ENDING and an event id exists, the
database row is finalized (see `EventRepository.finalize_event`), cooldown
starts at `now + cooldown_seconds`, and the event state is reset. -/
def complete_event_ending (cfg : EngineConfig) (st : DetectorState)
    (now : ℚ) : DetectorState :=
  if st.phase = .ENDING then
    if st.current_event_id = none then { st with ending_task_pending := false }
    else
      { st with
        phase := .COOLDOWN,
        last_event_end := some now,
        cooldown_until := some (now + cfg.cooldown_seconds),
        current_event_id := none,
        event_start_time := none,
        event_scores := [],
        event_frame_count := 0,
        peak_score := 0,
        clip_frames := [],
        ending_task_pending := false }
  else st

end EventDetectionEngine

theorem process_score_active_hysteresis (cfg : EngineConfig) (st : DetectorState)
    (score : InferenceScore) (pre latest : List FramePacket) (nid : ℕ)
    (dbn : ℚ) (hact : st.phase = .ACTIVE) :
    ((EventDetectionEngine.process_score cfg st score pre latest nid dbn).1.phase
        = .ENDING ↔ score.violence_score < cfg.threshold * (8/10)) ∧
    (score.violence_score = cfg.threshold * (8/10) →
      (EventDetectionEngine.process_score cfg st score pre latest nid dbn).1.phase
        = .ACTIVE) ∧
    (cfg.threshold * (8/10) ≤ score.violence_score →
      (EventDetectionEngine.process_score cfg st score pre latest nid dbn).1.phase
        = .ACTIVE) ∧
    (EventDetectionEngine.process_score cfg st score pre latest nid dbn).2 = none := by
  obtain ⟨ph, cnt, lvt, cei, est, esc, efc, pk, cu, lee, cf, etp⟩ := st
  simp only at hact
  subst hact
  simp only [EventDetectionEngine.process_score,
    EventDetectionEngine.cooldownExpired, EventDetectionEngine.hysteresis_factor]
  by_cases hb : score.violence_score < cfg.threshold * (8/10)
  · refine ⟨by simp [hb], ?_, ?_, by simp [hb]⟩
    · intro h2
      rw [h2] at hb
      exact absurd hb (lt_irrefl _)
    · intro h2
      exact absurd hb (not_lt.mpr h2)
  · refine ⟨by simp [hb], ?_, ?_, by simp [hb]⟩
    · intro h2
      simp [hb]
    · intro h2
      simp [hb]

/-- The per-result flags consumed by `EventDetector.process_result`
(`app/events/detector.py` lines 123-127): the `getattr` defaults are
supplied by whoever builds this record. -/
structure AnalyzedResult where
  result : InferenceResult
  is_camera_shake : Bool
  is_stable : Bool
  is_confirmed : Bool
  stabilized_score : ℚ
  raw_score : ℚ
deriving DecidableEq, Repr

/-- `EventState` from `app/events/detector.py` (dataclass defaults). -/
structure EventState where
  stream_id : ℕ
  stream_name : String
  is_active : Bool := false
  start_time : Option ℚ := none
  scores : List ℚ := []
  frame_buffer : List FramePacket := []
  pre_event_frames : List FramePacket := []
  consecutive_high_scores : ℕ := 0
  consecutive_low_scores : ℕ := 0
  last_high_score_time : Option ℚ := none
  cooldown_until : Option ℚ := none
  alert_clip_saved : Bool := false
  high_conf_active : Bool := false
  high_conf_start_time : Option ℚ := none
  high_conf_end_time : Option ℚ := none
  high_conf_pre_frames : List FramePacket := []
  high_conf_peak_score : ℚ := 0
deriving DecidableEq, Repr

/-- Configuration held by `EventDetector.__init__` (the fields
`process_result` reads). -/
structure LegacyDetectorConfig where
  threshold : ℚ
  clip_conf_threshold : ℚ
  min_consecutive : ℕ
  cooldown_seconds : ℚ
  full_clip_before : ℚ
deriving DecidableEq, Repr

namespace EventDetector

/-- `EventDetector.END_CONSECUTIVE = 3`: consecutive non-violent frames
needed before the event end is scheduled. -/
def END_CONSECUTIVE : ℕ := 3

/-- `EventDetector.process_result` (`app/events/detector.py` lines
104-232) as a pure transition. `pending_end` models whether a
`_delayed_event_end` task is scheduled and not done; `pre_frames` and
`hc_pre_frames` are what `stream.get_frame_window(full_clip_before)`
returns at the `_start_event` and high-confidence snapshots; `now` stands
for `datetime.utcnow()`. Returns the new state, the new pending-end flag
(a `True` transition models scheduling `_delayed_event_end`, which calls
`_end_event` → `_finalize_event` unless cancelled) and whether
`_start_event` ran. Database logging and the clip-saving tasks have no
state effect beyond what is modelled. -/
def process_result (cfg : LegacyDetectorConfig) (st : EventState)
    (pending_end : Bool) (r : AnalyzedResult) (now : ℚ)
    (pre_frames hc_pre_frames : List FramePacket) :
    EventState × Bool × Bool :=
  let in_cooldown : Bool := match st.cooldown_until with
    | some cu => decide (now < cu)
    | none => false
  let is_problematic := r.is_camera_shake || !r.is_stable
  let is_violent := if is_problematic then false
                    else r.result.is_violent cfg.threshold
  if is_violent then
    let st := { st with
      consecutive_high_scores := st.consecutive_high_scores + 1,
      consecutive_low_scores := 0,
      last_high_score_time := some now }
    let actual := r.result.violence_score
    let st := if actual ≥ cfg.clip_conf_threshold then
        let st := if !st.high_conf_active then
            { st with
              high_conf_active := true,
              high_conf_start_time := some now,
              high_conf_end_time := none,
              high_conf_pre_frames := hc_pre_frames }
          else st
        if actual > st.high_conf_peak_score then
          { st with high_conf_peak_score := actual }
        else st
      else st
    if st.is_active then
      ({ st with scores := st.scores ++ [r.result.violence_score] },
       false, false)
    else if !in_cooldown then
      let should_start :=
        if r.is_confirmed && r.is_stable then true
        else if decide (st.consecutive_high_scores ≥ cfg.min_consecutive)
            && r.is_stable then
          if !is_problematic && decide (r.stabilized_score ≥ cfg.threshold) then
            true
          else if r.stabilized_score ≥ 85/100 then true
          else false
        else false
      if should_start then
        ({ st with
           is_active := true,
           start_time := some now,
           scores := [r.result.violence_score],
           alert_clip_saved := false,
           consecutive_low_scores := 0,
           pre_event_frames := pre_frames }, pending_end, true)
      else (st, pending_end, false)
    else (st, pending_end, false)
  else
    let st := { st with
      consecutive_low_scores := st.consecutive_low_scores + 1 }
    let actual := r.result.violence_score
    let st := if st.high_conf_active && decide (actual < cfg.clip_conf_threshold)
        then { st with high_conf_end_time := some now, high_conf_active := false }
      else st
    if st.is_active then
      let st := { st with scores := st.scores ++ [r.result.violence_score] }
      if st.consecutive_low_scores ≥ END_CONSECUTIVE then
        if !pending_end then (st, true, false)
        else (st, pending_end, false)
      else (st, pending_end, false)
    else
      ({ st with consecutive_high_scores := 0 }, pending_end, false)

end EventDetector

theorem process_result_active_low (cfg : LegacyDetectorConfig)
    (st : EventState) (pe : Bool) (r : AnalyzedResult) (now : ℚ)
    (pre hc : List FramePacket)
    (hact : st.is_active = true)
    (hshake : r.is_camera_shake = false) (hstable : r.is_stable = true)
    (hlow : r.result.violence_score < cfg.threshold) :
    (EventDetector.process_result cfg st pe r now pre hc).2.1
      = (pe || decide (st.consecutive_low_scores + 1
          ≥ EventDetector.END_CONSECUTIVE)) ∧
    (EventDetector.process_result cfg st pe r now pre hc).1.is_active = true ∧
    (EventDetector.process_result cfg st pe r now pre hc).2.2 = false ∧
    (EventDetector.process_result cfg st pe r now pre hc).1.consecutive_low_scores
      = st.consecutive_low_scores + 1 := by
  obtain ⟨sid, sname, ia, stt, scs, fb, pef, chs, cls, lht, cuu, acs,
    hca, hcst, hcet, hcpf, hcpk⟩ := st
  simp only at hact
  subst hact
  have hnv : ¬ (r.result.violence_score ≥ cfg.threshold) := not_le.mpr hlow
  simp only [EventDetector.process_result, EventDetector.END_CONSECUTIVE,
    InferenceResult.is_violent, hshake, hstable]
  cases pe <;>
    by_cases hcond : (hca && decide
        (r.result.violence_score < cfg.clip_conf_threshold)) = true <;>
    by_cases hc3 : cls + 1 ≥ 3 <;>
    simp [hnv, hcond, hc3]

/-- The legacy detector configuration used in concrete C3 checks:
threshold 0.5 (so 0.8 × threshold = 0.4), clip-confidence 0.9. -/
def cfgLegacy : LegacyDetectorConfig := ⟨1/2, 9/10, 2, 5, 10⟩

/-- A legacy detector state with an active event (one violent score so
far). -/
def activeLegacyState : EventState :=
  { stream_id := 1, stream_name := "cam", is_active := true,
    start_time := some 0, scores := [9/10] }

/-- An inference result scoring exactly `0.8 × threshold = 0.4`, with a
stable camera and no shake. -/
def endThresholdResult : AnalyzedResult :=
  { result := ⟨4/10, 6/10, 1, 10, 16, 0, 1, 1⟩,
    is_camera_shake := false, is_stable := true, is_confirmed := false,
    stabilized_score := 4/10, raw_score := 4/10 }

/-- C3 counterexample: on the cited legacy `EventDetector.process_result`
there is no hysteresis — with an active event, the third consecutive score
exactly equal to `end_threshold = 0.8 × threshold` (0.4 at threshold 0.5,
which the claim says can never begin the ending process) schedules the
event end. -/
theorem c3_legacy_end_threshold_counterexample :
    (4:ℚ)/10 = cfgLegacy.threshold * (8/10) ∧
    endThresholdResult.result.violence_score = 4/10 ∧
    activeLegacyState.is_active = true ∧
    (EventDetector.process_result cfgLegacy activeLegacyState false
        endThresholdResult 1 [] []).2.1 = false ∧
    (EventDetector.process_result cfgLegacy
        (EventDetector.process_result cfgLegacy activeLegacyState false
          endThresholdResult 1 [] []).1
        (EventDetector.process_result cfgLegacy activeLegacyState false
          endThresholdResult 1 [] []).2.1
        endThresholdResult 2 [] []).2.1 = false ∧
    (EventDetector.process_result cfgLegacy
        (EventDetector.process_result cfgLegacy
          (EventDetector.process_result cfgLegacy activeLegacyState false
            endThresholdResult 1 [] []).1
          (EventDetector.process_result cfgLegacy activeLegacyState false
            endThresholdResult 1 [] []).2.1
          endThresholdResult 2 [] []).1
        (EventDetector.process_result cfgLegacy
          (EventDetector.process_result cfgLegacy activeLegacyState false
            endThresholdResult 1 [] []).1
          (EventDetector.process_result cfgLegacy activeLegacyState false
            endThresholdResult 1 [] []).2.1
          endThresholdResult 2 [] []).2.1
        endThresholdResult 3 [] []).2.1 = true := by
  have hlow : endThresholdResult.result.violence_score < cfgLegacy.threshold := by
    norm_num [cfgLegacy, endThresholdResult]
  obtain ⟨h1p, h1a, h1s, h1c⟩ := process_result_active_low cfgLegacy
    activeLegacyState false endThresholdResult 1 [] [] rfl rfl rfl hlow
  have e1p : (EventDetector.process_result cfgLegacy activeLegacyState false
      endThresholdResult 1 [] []).2.1 = false := by
    simpa [activeLegacyState, EventDetector.END_CONSECUTIVE] using h1p
  have e1c : (EventDetector.process_result cfgLegacy activeLegacyState false
      endThresholdResult 1 [] []).1.consecutive_low_scores = 1 := by
    simpa [activeLegacyState] using h1c
  obtain ⟨h2p, h2a, h2s, h2c⟩ := process_result_active_low cfgLegacy
    (EventDetector.process_result cfgLegacy activeLegacyState false
      endThresholdResult 1 [] []).1
    (EventDetector.process_result cfgLegacy activeLegacyState false
      endThresholdResult 1 [] []).2.1
    endThresholdResult 2 [] [] h1a rfl rfl hlow
  have e2p : (EventDetector.process_result cfgLegacy
      (EventDetector.process_result cfgLegacy activeLegacyState false
        endThresholdResult 1 [] []).1
      (EventDetector.process_result cfgLegacy activeLegacyState false
        endThresholdResult 1 [] []).2.1
      endThresholdResult 2 [] []).2.1 = false := by
    rw [h2p, e1p, e1c]
    decide
  have e2c : (EventDetector.process_result cfgLegacy
      (EventDetector.process_result cfgLegacy activeLegacyState false
        endThresholdResult 1 [] []).1
      (EventDetector.process_result cfgLegacy activeLegacyState false
        endThresholdResult 1 [] []).2.1
      endThresholdResult 2 [] []).1.consecutive_low_scores = 2 := by
    rw [h2c, e1c]
  obtain ⟨h3p, h3a, h3s, h3c⟩ := process_result_active_low cfgLegacy
    (EventDetector.process_result cfgLegacy
      (EventDetector.process_result cfgLegacy activeLegacyState false
        endThresholdResult 1 [] []).1
      (EventDetector.process_result cfgLegacy activeLegacyState false
        endThresholdResult 1 [] []).2.1
      endThresholdResult 2 [] []).1
    (EventDetector.process_result cfgLegacy
      (EventDetector.process_result cfgLegacy activeLegacyState false
        endThresholdResult 1 [] []).1
      (EventDetector.process_result cfgLegacy activeLegacyState false
        endThresholdResult 1 [] []).2.1
      endThresholdResult 2 [] []).2.1
    endThresholdResult 3 [] [] h2a rfl rfl hlow
  have e3p : (EventDetector.process_result cfgLegacy
      (EventDetector.process_result cfgLegacy
        (EventDetector.process_result cfgLegacy activeLegacyState false
          endThresholdResult 1 [] []).1
        (EventDetector.process_result cfgLegacy activeLegacyState false
          endThresholdResult 1 [] []).2.1
        endThresholdResult 2 [] []).1
      (EventDetector.process_result cfgLegacy
        (EventDetector.process_result cfgLegacy activeLegacyState false
          endThresholdResult 1 [] []).1
        (EventDetector.process_result cfgLegacy activeLegacyState false
          endThresholdResult 1 [] []).2.1
        endThresholdResult 2 [] []).2.1
      endThresholdResult 3 [] []).2.1 = true := by
    rw [h3p, e2p, e2c]
    decide
  exact ⟨by norm_num [cfgLegacy], rfl, rfl, e1p, e2p, e3p⟩

/-- C3 amended: the hysteresis holds of `EventDetectionEngine.process_score`
— while ACTIVE it moves to ENDING exactly when the score is strictly below
`end_threshold = 0.8 × threshold`, so a score equal to `end_threshold`, and
any score in `[end_threshold, threshold)`, keeps it ACTIVE and creates no
event row. The legacy `EventDetector.process_result` has no end threshold:
during an active event, any (stable, shake-free) score strictly below
`threshold` counts toward `consecutive_low_scores`, and the end is
scheduled exactly when that counter reaches `END_CONSECUTIVE = 3` (or was
already scheduled) — so scores in `[end_threshold, threshold)` do begin the
ending process there. -/
theorem c3_active_ending_hysteresis_amended (cfg : EngineConfig)
    (st : DetectorState) (score : InferenceScore)
    (pre latest : List FramePacket) (nid : ℕ) (dbn : ℚ)
    (lcfg : LegacyDetectorConfig) (lst : EventState) (pe : Bool)
    (r : AnalyzedResult) (lnow : ℚ) (lpre lhc : List FramePacket)
    (hact : st.phase = .ACTIVE) (hactL : lst.is_active = true)
    (hshake : r.is_camera_shake = false) (hstable : r.is_stable = true) :
    (((EventDetectionEngine.process_score cfg st score pre latest nid dbn).1.phase
        = .ENDING ↔ score.violence_score < cfg.threshold * (8/10)) ∧
     (score.violence_score = cfg.threshold * (8/10) →
       (EventDetectionEngine.process_score cfg st score pre latest nid dbn).1.phase
         = .ACTIVE) ∧
     (cfg.threshold * (8/10) ≤ score.violence_score →
       (EventDetectionEngine.process_score cfg st score pre latest nid dbn).1.phase
         = .ACTIVE) ∧
     (EventDetectionEngine.process_score cfg st score pre latest nid dbn).2
       = none) ∧
    (r.result.violence_score < lcfg.threshold →
      ((EventDetector.process_result lcfg lst pe r lnow lpre lhc).2.1
         = (pe || decide (lst.consecutive_low_scores + 1
             ≥ EventDetector.END_CONSECUTIVE)) ∧
       (EventDetector.process_result lcfg lst pe r lnow lpre lhc).1.is_active
         = true)) := by
  refine ⟨process_score_active_hysteresis cfg st score pre latest nid dbn hact, ?_⟩
  intro hlow
  have h := process_result_active_low lcfg lst pe r lnow lpre lhc
    hactL hshake hstable hlow
  exact ⟨h.1, h.2.1⟩

/-- Witness for C3 amended: the engine on a concrete ACTIVE state at the
exact end threshold (threshold 1/2, end threshold 2/5), and the legacy
detector on `activeLegacyState` with the same score. -/
theorem c3_active_ending_hysteresis_amended_witness :
    (((EventDetectionEngine.process_score ⟨"sid", "cam", 1/2, 2, 5, 5, 15⟩
        { DetectorState.initial with phase := .ACTIVE, current_event_id := some 7 }
        ⟨4/10, 6/10, 102, 10, 16, 101, 102⟩ [] [] 9 102).1.phase = .ENDING ↔
      (4:ℚ)/10 < (1:ℚ)/2 * (8/10)) ∧
     ((4:ℚ)/10 = (1:ℚ)/2 * (8/10) →
       (EventDetectionEngine.process_score ⟨"sid", "cam", 1/2, 2, 5, 5, 15⟩
        { DetectorState.initial with phase := .ACTIVE, current_event_id := some 7 }
        ⟨4/10, 6/10, 102, 10, 16, 101, 102⟩ [] [] 9 102).1.phase = .ACTIVE) ∧
     ((1:ℚ)/2 * (8/10) ≤ (4:ℚ)/10 →
       (EventDetectionEngine.process_score ⟨"sid", "cam", 1/2, 2, 5, 5, 15⟩
        { DetectorState.initial with phase := .ACTIVE, current_event_id := some 7 }
        ⟨4/10, 6/10, 102, 10, 16, 101, 102⟩ [] [] 9 102).1.phase = .ACTIVE) ∧
     (EventDetectionEngine.process_score ⟨"sid", "cam", 1/2, 2, 5, 5, 15⟩
        { DetectorState.initial with phase := .ACTIVE, current_event_id := some 7 }
        ⟨4/10, 6/10, 102, 10, 16, 101, 102⟩ [] [] 9 102).2 = none) ∧
    (endThresholdResult.result.violence_score < cfgLegacy.threshold →
      ((EventDetector.process_result cfgLegacy activeLegacyState false
          endThresholdResult 1 [] []).2.1
         = (false || decide (activeLegacyState.consecutive_low_scores + 1
             ≥ EventDetector.END_CONSECUTIVE)) ∧
       (EventDetector.process_result cfgLegacy activeLegacyState false
          endThresholdResult 1 [] []).1.is_active = true)) :=
  c3_active_ending_hysteresis_amended ⟨"sid", "cam", 1/2, 2, 5, 5, 15⟩
    { DetectorState.initial with phase := .ACTIVE, current_event_id := some 7 }
    ⟨4/10, 6/10, 102, 10, 16, 101, 102⟩ [] [] 9 102
    cfgLegacy activeLegacyState false endThresholdResult 1 [] []
    rfl rfl rfl rfl

/-- The engine configuration of the C5 counterexample:
`min_consecutive_frames = 1`, threshold 0.5. -/
def cfgMinOne : EngineConfig := ⟨"sid", "cam", 1/2, 1, 5, 5, 15⟩

/-- A violent inference score (0.9 ≥ threshold 0.5). -/
def violentScore : InferenceScore := ⟨9/10, 1/10, 100, 10, 16, 99, 100⟩

/-- C5 counterexample: with `min_consecutive_frames = 1` and the detector
IDLE, the first score at or above the threshold only moves the detector to
TRIGGERED and creates no event — the IDLE branch never checks the
confirmation condition. -/
theorem c5_min_consecutive_one_counterexample :
    cfgMinOne.min_consecutive = 1 ∧
    violentScore.violence_score ≥ cfgMinOne.threshold ∧
    DetectorState.initial.phase = .IDLE ∧
    (EventDetectionEngine.process_score cfgMinOne DetectorState.initial
        violentScore [] [] 7 100).2 = none ∧
    (EventDetectionEngine.process_score cfgMinOne DetectorState.initial
        violentScore [] [] 7 100).1.phase = .TRIGGERED := by
  refine ⟨rfl, by norm_num [cfgMinOne, violentScore], rfl, ?_, ?_⟩ <;>
    · simp only [EventDetectionEngine.process_score,
        EventDetectionEngine.cooldownExpired, DetectorState.initial,
        cfgMinOne, violentScore]
      norm_num
      simp

theorem process_score_idle_violent (cfg : EngineConfig) (st : DetectorState)
    (score : InferenceScore) (pre latest : List FramePacket) (nid : ℕ)
    (dbn : ℚ) (hidle : st.phase = .IDLE)
    (hv : score.violence_score ≥ cfg.threshold) :
    ∃ cf2, EventDetectionEngine.process_score cfg st score pre latest nid dbn
      = ({ st with
           phase := .TRIGGERED,
           consecutive_violent_count := 1,
           last_violent_time := some score.timestamp,
           clip_frames := cf2 }, none) := by
  obtain ⟨ph, cnt, lvt, cei, est, esc, efc, pk, cu, lee, cf, etp⟩ := st
  simp only at hidle
  subst hidle
  refine ⟨if pre = [] then cf else pre, ?_⟩
  simp only [EventDetectionEngine.process_score,
    EventDetectionEngine.cooldownExpired]
  by_cases hpre : pre = [] <;> simp [hpre, hv]

theorem process_score_triggered_confirm (cfg : EngineConfig)
    (st : DetectorState) (score : InferenceScore)
    (pre latest : List FramePacket) (nid : ℕ) (dbn : ℚ)
    (htr : st.phase = .TRIGGERED)
    (hv : score.violence_score ≥ cfg.threshold)
    (hc : st.consecutive_violent_count + 1 ≥ cfg.min_consecutive) :
    (EventDetectionEngine.process_score cfg st score pre latest nid dbn).1.phase
      = .ACTIVE ∧
    (EventDetectionEngine.process_score cfg st score pre latest nid dbn).2.isSome
      = true := by
  obtain ⟨ph, cnt, lvt, cei, est, esc, efc, pk, cu, lee, cf, etp⟩ := st
  simp only at htr hc
  subst htr
  simp only [EventDetectionEngine.process_score,
    EventDetectionEngine.cooldownExpired]
  by_cases hpre : pre = [] <;> simp [hpre, hv, hc]

/-- C5 amended: with `min_consecutive_frames ≤ 1`, the detector starting in
IDLE opens the event on the second consecutive violent score, not the first:
the first violent score moves IDLE → TRIGGERED without a confirmation check,
and the event (state ACTIVE, row created) appears when the next violent
score is processed. -/
theorem c5_min_consecutive_one_amended (cfg : EngineConfig)
    (s1 s2 : InferenceScore) (pre1 l1 pre2 l2 : List FramePacket)
    (n1 n2 : ℕ) (d1 d2 : ℚ) (st : DetectorState)
    (hmc : cfg.min_consecutive ≤ 1) (hidle : st.phase = .IDLE)
    (hv1 : s1.violence_score ≥ cfg.threshold)
    (hv2 : s2.violence_score ≥ cfg.threshold) :
    (EventDetectionEngine.process_score cfg st s1 pre1 l1 n1 d1).2 = none ∧
    (EventDetectionEngine.process_score cfg st s1 pre1 l1 n1 d1).1.phase
      = .TRIGGERED ∧
    (EventDetectionEngine.process_score cfg
        (EventDetectionEngine.process_score cfg st s1 pre1 l1 n1 d1).1
        s2 pre2 l2 n2 d2).1.phase = .ACTIVE ∧
    (EventDetectionEngine.process_score cfg
        (EventDetectionEngine.process_score cfg st s1 pre1 l1 n1 d1).1
        s2 pre2 l2 n2 d2).2.isSome = true := by
  obtain ⟨cf2, h1⟩ := process_score_idle_violent cfg st s1 pre1 l1 n1 d1 hidle hv1
  rw [h1]
  have h2 := process_score_triggered_confirm cfg
    { st with
      phase := .TRIGGERED,
      consecutive_violent_count := 1,
      last_violent_time := some s1.timestamp,
      clip_frames := cf2 } s2 pre2 l2 n2 d2 rfl hv2 (by simp; omega)
  exact ⟨rfl, rfl, h2.1, h2.2⟩

/-- Witness for C5 amended: concrete two-score run with
`min_consecutive = 1`. -/
theorem c5_min_consecutive_one_amended_witness :
    (EventDetectionEngine.process_score cfgMinOne DetectorState.initial
        violentScore [] [] 7 100).2 = none ∧
    (EventDetectionEngine.process_score cfgMinOne DetectorState.initial
        violentScore [] [] 7 100).1.phase = .TRIGGERED ∧
    (EventDetectionEngine.process_score cfgMinOne
        (EventDetectionEngine.process_score cfgMinOne DetectorState.initial
          violentScore [] [] 7 100).1
        violentScore [] [] 8 101).1.phase = .ACTIVE ∧
    (EventDetectionEngine.process_score cfgMinOne
        (EventDetectionEngine.process_score cfgMinOne DetectorState.initial
          violentScore [] [] 7 100).1
        violentScore [] [] 8 101).2.isSome = true :=
  c5_min_consecutive_one_amended cfgMinOne violentScore violentScore
    [] [] [] [] 7 8 100 101 DetectorState.initial
    (by norm_num [cfgMinOne]) rfl
    (by norm_num [cfgMinOne, violentScore])
    (by norm_num [cfgMinOne, violentScore])

theorem process_score_cooldown_blocked (cfg : EngineConfig)
    (st : DetectorState) (score : InferenceScore)
    (pre latest : List FramePacket) (nid : ℕ) (dbn cu : ℚ)
    (hcd : st.phase = .COOLDOWN) (hcu : st.cooldown_until = some cu)
    (hlt : score.timestamp < cu) :
    EventDetectionEngine.process_score cfg st score pre latest nid dbn
      = (st, none) := by
  obtain ⟨ph, cnt, lvt, cei, est, esc, efc, pk, cuf, lee, cf, etp⟩ := st
  simp only at hcd hcu
  subst hcd
  subst hcu
  simp only [EventDetectionEngine.process_score,
    EventDetectionEngine.cooldownExpired]
  rw [if_pos]
  exact ⟨trivial, by simp [not_le.mpr hlt]⟩

theorem process_score_cooldown_expired_violent (cfg : EngineConfig)
    (st : DetectorState) (score : InferenceScore)
    (pre latest : List FramePacket) (nid : ℕ) (dbn cu : ℚ)
    (hcd : st.phase = .COOLDOWN) (hcu : st.cooldown_until = some cu)
    (hex : cu ≤ score.timestamp)
    (hv : score.violence_score ≥ cfg.threshold) :
    ∃ cf2, EventDetectionEngine.process_score cfg st score pre latest nid dbn
      = ({ st with
           phase := .TRIGGERED,
           consecutive_violent_count := 1,
           last_violent_time := some score.timestamp,
           clip_frames := cf2 }, none) := by
  obtain ⟨ph, cnt, lvt, cei, est, esc, efc, pk, cuf, lee, cf, etp⟩ := st
  simp only at hcd hcu
  subst hcd
  subst hcu
  refine ⟨if pre = [] then cf else pre, ?_⟩
  simp only [EventDetectionEngine.process_score,
    EventDetectionEngine.cooldownExpired]
  by_cases hpre : pre = [] <;> simp [hpre, hv, hex]

theorem process_score_cooldown_expired_nonviolent (cfg : EngineConfig)
    (st : DetectorState) (score : InferenceScore)
    (pre latest : List FramePacket) (nid : ℕ) (dbn cu : ℚ)
    (hcd : st.phase = .COOLDOWN) (hcu : st.cooldown_until = some cu)
    (hex : cu ≤ score.timestamp)
    (hv : ¬(score.violence_score ≥ cfg.threshold)) :
    ∃ cf2, EventDetectionEngine.process_score cfg st score pre latest nid dbn
      = ({ st with phase := .IDLE, clip_frames := cf2 }, none) := by
  obtain ⟨ph, cnt, lvt, cei, est, esc, efc, pk, cuf, lee, cf, etp⟩ := st
  simp only at hcd hcu
  subst hcd
  subst hcu
  refine ⟨if pre = [] then cf else pre, ?_⟩
  simp only [EventDetectionEngine.process_score,
    EventDetectionEngine.cooldownExpired]
  by_cases hpre : pre = [] <;> simp [hpre, hv, hex]

/-- C8: while `now < cooldown_until` every score is ignored — the state is
unchanged and no event row is created, whatever the score's value; once
`now ≥ cooldown_until` the detector leaves COOLDOWN (a violent score lands in
TRIGGERED, a non-violent one in IDLE) and a subsequent violent burst creates
a new event (second violent score, for `min_consecutive_frames ≤ 2`);
finalization of an ENDING event enters COOLDOWN with
`cooldown_until = now + cooldown_seconds`. -/
theorem c8_cooldown_refractory (cfg : EngineConfig) (st stE : DetectorState)
    (score s1 s2 : InferenceScore)
    (pre latest pre1 l1 pre2 l2 : List FramePacket)
    (nid n1 n2 : ℕ) (dbn d1 d2 cu tE : ℚ)
    (hcd : st.phase = .COOLDOWN) (hcu : st.cooldown_until = some cu) :
    (score.timestamp < cu →
      EventDetectionEngine.process_score cfg st score pre latest nid dbn
        = (st, none)) ∧
    (cu ≤ s1.timestamp → s1.violence_score ≥ cfg.threshold →
      (EventDetectionEngine.process_score cfg st s1 pre1 l1 n1 d1).1.phase
          = .TRIGGERED ∧
      (EventDetectionEngine.process_score cfg st s1 pre1 l1 n1 d1).2 = none) ∧
    (cu ≤ s1.timestamp → ¬(s1.violence_score ≥ cfg.threshold) →
      (EventDetectionEngine.process_score cfg st s1 pre1 l1 n1 d1).1.phase
          = .IDLE) ∧
    (cu ≤ s1.timestamp → s1.violence_score ≥ cfg.threshold →
      s2.violence_score ≥ cfg.threshold → cfg.min_consecutive ≤ 2 →
      (EventDetectionEngine.process_score cfg
          (EventDetectionEngine.process_score cfg st s1 pre1 l1 n1 d1).1
          s2 pre2 l2 n2 d2).2.isSome = true) ∧
    (stE.phase = .ENDING → stE.current_event_id ≠ none →
      (EventDetectionEngine.complete_event_ending cfg stE tE).phase
          = .COOLDOWN ∧
      (EventDetectionEngine.complete_event_ending cfg stE tE).cooldown_until
          = some (tE + cfg.cooldown_seconds)) := by
  refine ⟨?_, ?_, ?_, ?_, ?_⟩
  · intro hlt
    exact process_score_cooldown_blocked cfg st score pre latest nid dbn cu
      hcd hcu hlt
  · intro hex hv
    obtain ⟨cf2, h1⟩ := process_score_cooldown_expired_violent cfg st s1
      pre1 l1 n1 d1 cu hcd hcu hex hv
    rw [h1]
    exact ⟨rfl, rfl⟩
  · intro hex hv
    obtain ⟨cf2, h1⟩ := process_score_cooldown_expired_nonviolent cfg st s1
      pre1 l1 n1 d1 cu hcd hcu hex hv
    rw [h1]
  · intro hex hv1 hv2 hmc
    obtain ⟨cf2, h1⟩ := process_score_cooldown_expired_violent cfg st s1
      pre1 l1 n1 d1 cu hcd hcu hex hv1
    rw [h1]
    have h2 := process_score_triggered_confirm cfg
      { st with
        phase := .TRIGGERED,
        consecutive_violent_count := 1,
        last_violent_time := some s1.timestamp,
        clip_frames := cf2 } s2 pre2 l2 n2 d2 rfl hv2 (by simp; omega)
    exact h2.2
  · intro hE hid
    obtain ⟨ph, cnt, lvt, cei, est, esc, efc, pk, cuf, lee, cf, etp⟩ := stE
    simp only at hE hid
    subst hE
    simp [EventDetectionEngine.complete_event_ending, hid]

/-- Witness for C8: a concrete COOLDOWN state (until t = 50), a violent score
at t = 40 (ignored), violent scores at t = 60 and 61 (reopen and create), and
a concrete ENDING finalization at t = 70. -/
theorem c8_cooldown_refractory_witness :
    (((40:ℚ)) < 50 →
      EventDetectionEngine.process_score ⟨"sid", "cam", 1/2, 2, 5, 5, 15⟩
        { DetectorState.initial with phase := .COOLDOWN, cooldown_until := some 50 }
        ⟨9/10, 1/10, 40, 10, 16, 39, 40⟩ [] [] 9 40
      = ({ DetectorState.initial with
           phase := .COOLDOWN, cooldown_until := some 50 }, none)) ∧
    ((50:ℚ) ≤ 60 → (9:ℚ)/10 ≥ (⟨"sid", "cam", 1/2, 2, 5, 5, 15⟩ : EngineConfig).threshold →
      (EventDetectionEngine.process_score ⟨"sid", "cam", 1/2, 2, 5, 5, 15⟩
        { DetectorState.initial with phase := .COOLDOWN, cooldown_until := some 50 }
        ⟨9/10, 1/10, 60, 10, 16, 59, 60⟩ [] [] 9 60).1.phase = .TRIGGERED ∧
      (EventDetectionEngine.process_score ⟨"sid", "cam", 1/2, 2, 5, 5, 15⟩
        { DetectorState.initial with phase := .COOLDOWN, cooldown_until := some 50 }
        ⟨9/10, 1/10, 60, 10, 16, 59, 60⟩ [] [] 9 60).2 = none) ∧
    ((50:ℚ) ≤ 60 → ¬((9:ℚ)/10 ≥ (⟨"sid", "cam", 1/2, 2, 5, 5, 15⟩ : EngineConfig).threshold) →
      (EventDetectionEngine.process_score ⟨"sid", "cam", 1/2, 2, 5, 5, 15⟩
        { DetectorState.initial with phase := .COOLDOWN, cooldown_until := some 50 }
        ⟨9/10, 1/10, 60, 10, 16, 59, 60⟩ [] [] 9 60).1.phase = .IDLE) ∧
    ((50:ℚ) ≤ 60 → (9:ℚ)/10 ≥ (⟨"sid", "cam", 1/2, 2, 5, 5, 15⟩ : EngineConfig).threshold →
      (9:ℚ)/10 ≥ (⟨"sid", "cam", 1/2, 2, 5, 5, 15⟩ : EngineConfig).threshold →
      (⟨"sid", "cam", 1/2, 2, 5, 5, 15⟩ : EngineConfig).min_consecutive ≤ 2 →
      (EventDetectionEngine.process_score ⟨"sid", "cam", 1/2, 2, 5, 5, 15⟩
          (EventDetectionEngine.process_score ⟨"sid", "cam", 1/2, 2, 5, 5, 15⟩
            { DetectorState.initial with phase := .COOLDOWN, cooldown_until := some 50 }
            ⟨9/10, 1/10, 60, 10, 16, 59, 60⟩ [] [] 9 60).1
          ⟨9/10, 1/10, 61, 10, 16, 60, 61⟩ [] [] 10 61).2.isSome = true) ∧
    (({ DetectorState.initial with
        phase := .ENDING, current_event_id := some 7 } : DetectorState).phase = .ENDING →
      ({ DetectorState.initial with
        phase := .ENDING, current_event_id := some 7 } : DetectorState).current_event_id ≠ none →
      (EventDetectionEngine.complete_event_ending ⟨"sid", "cam", 1/2, 2, 5, 5, 15⟩
          { DetectorState.initial with
            phase := .ENDING, current_event_id := some 7 } 70).phase = .COOLDOWN ∧
      (EventDetectionEngine.complete_event_ending ⟨"sid", "cam", 1/2, 2, 5, 5, 15⟩
          { DetectorState.initial with
            phase := .ENDING, current_event_id := some 7 } 70).cooldown_until
        = some (70 + (⟨"sid", "cam", 1/2, 2, 5, 5, 15⟩ : EngineConfig).cooldown_seconds)) :=
  c8_cooldown_refractory ⟨"sid", "cam", 1/2, 2, 5, 5, 15⟩
    { DetectorState.initial with phase := .COOLDOWN, cooldown_until := some 50 }
    { DetectorState.initial with phase := .ENDING, current_event_id := some 7 }
    ⟨9/10, 1/10, 40, 10, 16, 39, 40⟩
    ⟨9/10, 1/10, 60, 10, 16, 59, 60⟩
    ⟨9/10, 1/10, 61, 10, 16, 60, 61⟩
    [] [] [] [] [] [] 9 9 10 40 60 61 50 70 rfl rfl

namespace LocalModelInference

/-- `LocalModelInference.EXPECTED_FRAMES = 16`. -/
def EXPECTED_FRAMES : ℕ := 16

/-- `np.linspace(0, n − 1, count).astype(int)` (truncation of the exact
evenly spaced values): index `i ↦ i·(n−1)/(count−1)` in integer division. -/
def linspace_indices (n count : ℕ) : List ℕ :=
  (List.range count).map (fun i => i * (n - 1) / (count - 1))

/-- The frame-selection part of `LocalModelInference.preprocess_frames`
(`app/inference/pipeline.py` lines 174-206): fewer than 16 frames are padded
by repeating the last frame (`frames[-1]`, an IndexError — `none` — on an
empty list); more than 16 are sampled at `linspace` indices; exactly 16 pass
through. -/
def select_frames {α : Type} (frames : List α) : Option (List α) :=
  match frames.getLast? with
  | none => none
  | some lastFrame =>
    if frames.length < EXPECTED_FRAMES then
      some (frames ++ List.replicate (EXPECTED_FRAMES - frames.length) lastFrame)
    else if frames.length > EXPECTED_FRAMES then
      some ((linspace_indices frames.length EXPECTED_FRAMES).map
        (fun i => frames.getD i lastFrame))
    else some frames

/-- One processed frame: a 224 × 224 RGB tensor of scaled pixel values —
the (224, 224, 3) trailing dimensions of the model input. -/
def ProcessedFrame : Type := Fin 224 → Fin 224 → Fin 3 → ℚ

/-- `LocalModelInference.preprocess_frames`: the per-frame BGR→RGB
conversion, resize to `TARGET_SIZE = (224, 224)` and scaling to [−1, 1] is
the abstract `resize`; the result is the selected 16 frames stacked, with a
batch dimension of 1 — shape (1, 16, 224, 224, 3). -/
def preprocess_frames {α : Type} (resize : α → ProcessedFrame)
    (frames : List α) : Option (List (List ProcessedFrame)) :=
  (select_frames frames).map (fun sel => [sel.map resize])

end LocalModelInference

/-- C10: for every non-empty frame list the preprocessing produces a batch
of exactly one window of exactly 16 processed frames (each of type
`ProcessedFrame`, i.e. 224 × 224 × 3) — padding by repetition of the last
frame below 16, evenly spaced in-range `linspace` indices above 16. -/
theorem c10_preprocess_sixteen {α : Type}
    (resize : α → LocalModelInference.ProcessedFrame) (frames : List α)
    (hne : frames ≠ []) :
    ∃ batch, LocalModelInference.preprocess_frames resize frames = some batch ∧
      batch.length = 1 ∧
      (∀ fs ∈ batch, fs.length = 16) ∧
      (frames.length < 16 →
        LocalModelInference.select_frames frames
          = some (frames ++
              List.replicate (16 - frames.length) (frames.getLast hne))) ∧
      (frames.length > 16 →
        LocalModelInference.select_frames frames
          = some ((LocalModelInference.linspace_indices frames.length 16).map
              (fun i => frames.getD i (frames.getLast hne)))) ∧
      (∀ i ∈ LocalModelInference.linspace_indices frames.length 16,
        i < frames.length) := by
  have hlast : frames.getLast? = some (frames.getLast hne) :=
    List.getLast?_eq_getLast frames hne
  have hlen : 0 < frames.length := List.length_pos.mpr hne
  have hsel : ∃ sel, LocalModelInference.select_frames frames = some sel ∧
      sel.length = 16 := by
    rw [LocalModelInference.select_frames, hlast]
    dsimp only
    by_cases hlt : frames.length < LocalModelInference.EXPECTED_FRAMES
    · rw [if_pos hlt]
      refine ⟨_, rfl, ?_⟩
      simp only [List.length_append, List.length_replicate,
        LocalModelInference.EXPECTED_FRAMES] at hlt ⊢
      omega
    · rw [if_neg hlt]
      by_cases hgt : frames.length > LocalModelInference.EXPECTED_FRAMES
      · rw [if_pos hgt]
        refine ⟨_, rfl, ?_⟩
        simp [LocalModelInference.linspace_indices,
          LocalModelInference.EXPECTED_FRAMES]
      · rw [if_neg hgt]
        refine ⟨_, rfl, ?_⟩
        simp only [LocalModelInference.EXPECTED_FRAMES] at hlt hgt
        omega
  obtain ⟨sel, hseq, hslen⟩ := hsel
  refine ⟨[sel.map resize], ?_, rfl, ?_, ?_, ?_, ?_⟩
  · rw [LocalModelInference.preprocess_frames, hseq]
    rfl
  · intro fs hfs
    rw [List.mem_singleton] at hfs
    rw [hfs, List.length_map, hslen]
  · intro hlt
    rw [LocalModelInference.select_frames, hlast]
    dsimp only
    rw [if_pos (show frames.length < LocalModelInference.EXPECTED_FRAMES from hlt)]
    rfl
  · intro hgt
    rw [LocalModelInference.select_frames, hlast]
    dsimp only
    rw [if_neg (show ¬ frames.length < LocalModelInference.EXPECTED_FRAMES by
          simp only [LocalModelInference.EXPECTED_FRAMES]; omega),
      if_pos (show frames.length > LocalModelInference.EXPECTED_FRAMES from hgt)]
    rfl
  · intro i hi
    simp only [LocalModelInference.linspace_indices, List.mem_map,
      List.mem_range] at hi
    obtain ⟨j, hj, hji⟩ := hi
    have hb : j * (frames.length - 1) / 15 ≤ frames.length - 1 := by
      have h1 : j * (frames.length - 1) ≤ 15 * (frames.length - 1) :=
        Nat.mul_le_mul_right _ (by omega)
      calc j * (frames.length - 1) / 15 ≤ 15 * (frames.length - 1) / 15 :=
            Nat.div_le_div_right h1
        _ = frames.length - 1 := Nat.mul_div_cancel_left _ (by norm_num)
    omega

/-- Witness for C10 on the one-frame list [0] with a constant resize. -/
theorem c10_preprocess_sixteen_witness :
    ∃ batch, LocalModelInference.preprocess_frames
        (fun _ => (fun _ _ _ => (0:ℚ))) ([0] : List ℕ) = some batch ∧
      batch.length = 1 ∧
      (∀ fs ∈ batch, fs.length = 16) ∧
      (([0] : List ℕ).length < 16 →
        LocalModelInference.select_frames ([0] : List ℕ)
          = some (([0] : List ℕ) ++
              List.replicate (16 - ([0] : List ℕ).length)
                (([0] : List ℕ).getLast (by simp)))) ∧
      (([0] : List ℕ).length > 16 →
        LocalModelInference.select_frames ([0] : List ℕ)
          = some ((LocalModelInference.linspace_indices ([0] : List ℕ).length 16).map
              (fun i => ([0] : List ℕ).getD i (([0] : List ℕ).getLast (by simp))))) ∧
      (∀ i ∈ LocalModelInference.linspace_indices ([0] : List ℕ).length 16,
        i < ([0] : List ℕ).length) :=
  c10_preprocess_sixteen (fun _ => (fun _ _ _ => (0:ℚ))) ([0] : List ℕ) (by simp)

end ViolenceSense
